import Mathlib

/-!
Verification of the insiteserver chat endpoint: a shallow embedding of
src/api/chat.ts (the Vercel-style request handler) and of the local dev
harness bundled in the same source (readRequestBody and the http server
callback), together with theorems settling the specification claims.

Modelling conventions:
* JS strings are Lean `String`s; `undefined`-able values are `Option`s.
* JS truthiness on strings: `undefined` and `""` are falsy.
* `JSON.parse` is a JS builtin, not code of this repository; it is passed
  in as a parameter `jsonParse : String → JsonParse` that reports either
  the thrown SyntaxError message or the projection the handler observes
  of the parsed value (whether `body?.text` is a string, and its value).
* The upstream OpenAI call is an external collaborator; it is passed in as
  `upstream : String → String → Except JsError String` (system prompt and
  user text to either a thrown error or the extracted completion content).
* Responses are recorded as status, the list of headers set via setHeader,
  and a body; `HandlerResult.upstreamCalled` records whether the live
  upstream call was invoked during the request.
-/

/-! JS string primitives, modelled structurally over the character list of
a `String` so that every definition reduces inside the kernel. -/

/-- JS `s.split(',')` : split at every comma (the separator is a single
character here, so JS and Lean splitting semantics agree). `cur` holds the
characters of the current field in reverse. -/
def splitOnCommaAux : List Char → List Char → List String
  | [], cur => [⟨cur.reverse⟩]
  | c :: cs, cur =>
    if c = ',' then ⟨cur.reverse⟩ :: splitOnCommaAux cs []
    else splitOnCommaAux cs (c :: cur)

/-- JS `s.split(',')`. -/
def splitOnComma (s : String) : List String :=
  splitOnCommaAux s.data []

/-- JS `s.trim()`: drop leading and trailing whitespace. -/
def jsTrim (s : String) : String :=
  ⟨((s.data.dropWhile Char.isWhitespace).reverse.dropWhile Char.isWhitespace).reverse⟩

/-- JS `s.toLowerCase()` (ASCII case folding). -/
def jsToLower (s : String) : String :=
  ⟨s.data.map Char.toLower⟩

/-- JS `s.startsWith(p)`. -/
def startsWithStr (s p : String) : Bool :=
  p.data.isPrefixOf s.data

/-- JS `s.slice(0, n)`. -/
def sliceTo (s : String) (n : Nat) : String :=
  ⟨s.data.take n⟩

/-- Does `pat` occur in `l`? (prefix of some suffix). -/
def hasSubAux (pat : List Char) : List Char → Bool
  | [] => pat.isPrefixOf []
  | c :: cs => pat.isPrefixOf (c :: cs) || hasSubAux pat cs

/-- JS `s.includes(pat)`: substring containment. -/
def includesSubstr (s pat : String) : Bool :=
  hasSubAux pat.data s.data

/-- JS truthiness for a `string | undefined` value: truthy iff defined and
non-empty. Models `Boolean(x)` and bare `if (x)` tests. -/
def jsTruthy : Option String → Bool
  | none => false
  | some s => s ≠ ""

/-- JS `x || d` for `x : string | undefined`: the fallback `d` is used when
`x` is undefined or the empty string. -/
def jsOr (x : Option String) (d : String) : String :=
  match x with
  | none => d
  | some s => if s = "" then d else s

/-- One step of collapsing whitespace runs: `inWs` says whether the previous
character was part of a whitespace run already replaced by a space. -/
def collapseWsAux : List Char → Bool → List Char
  | [], _ => []
  | c :: cs, inWs =>
    if c.isWhitespace then
      if inWs then collapseWsAux cs true
      else ' ' :: collapseWsAux cs true
    else c :: collapseWsAux cs false

/-- JS `s.replace(/\s+/g, ' ')`: every maximal whitespace run becomes one
space. -/
def collapseWs (s : String) : String :=
  ⟨collapseWsAux s.data false⟩

/-- A thrown JS error as observed by the catch blocks: an optional numeric
`status` field and an optional `message` (the message of a real `Error` is
always a string, possibly empty; `none` models a non-string/absent one). -/
structure JsError where
  status : Option Nat
  message : Option String
  deriving Repr, DecidableEq

/-- Result of `JSON.parse` on a string, projected to what the handler
observes: on success, `some t` iff the parsed value has a string field
`text` equal to `t` (`body?.text`); on failure, the SyntaxError message.
`JSON.parse` itself is a JS builtin, so it is a parameter of the model. -/
inductive JsonParse where
  | ok (textField : Option String)
  | thrown (message : String)
  deriving Repr, DecidableEq

/-- Process environment variables read by src/api/chat.ts. -/
structure Env where
  ALLOWED_ORIGINS : Option String
  OPENAI_API_KEY : Option String
  DEV_ALLOW_MOCK : Option String
  SYSTEM_PROMPT : Option String
  deriving Repr, DecidableEq

/-- The normalized request the handler consumes: method, the origin and
content-type headers, and the raw body string (as produced by the local
harness adapter, whose body is always a string). -/
structure Req where
  method : Option String
  origin : Option String
  contentType : Option String
  body : String
  deriving Repr, DecidableEq

/-- Response bodies the handler produces: empty (res.end()), a JSON error
envelope, or a JSON content envelope. -/
inductive RespBody where
  | empty
  | errorJson (msg : String)
  | contentJson (content : String)
  deriving Repr, DecidableEq

/-- A recorded response: status code, headers set via setHeader (in order),
and the body. -/
structure Response where
  status : Nat
  headers : List (String × String)
  body : RespBody
  deriving Repr, DecidableEq

/-- The handler outcome: the response plus whether the live upstream
completion call was invoked. -/
structure HandlerResult where
  response : Response
  upstreamCalled : Bool
  deriving Repr, DecidableEq

/-- src/api/chat.ts, parseAllowedOrigins (lines 4-10): split the
ALLOWED_ORIGINS variable on commas, trim each entry, drop falsy (empty)
entries. -/
def parseAllowedOrigins (env : Env) : List String :=
  let allowedOriginsEnv := (env.ALLOWED_ORIGINS.getD "")
  ((splitOnComma allowedOriginsEnv).map jsTrim).filter (fun o => o ≠ "")

/-- src/api/chat.ts, isOriginAllowed (lines 12-17): wildcard allows
everything regardless of origin presence; otherwise the origin must be
truthy (present and non-empty) and an exact member of the list. -/
def isOriginAllowed (origin : Option String) (allowed : List String) : Bool :=
  if allowed.contains "*" then true
  else match origin with
    | none => false
    | some o => if o = "" then false else allowed.contains o

/-- src/api/chat.ts, applyCors (lines 19-29): the headers it sets, in
order. -/
def applyCors (origin : Option String) (allowed : List String) :
    List (String × String) :=
  (if allowed.contains "*" then
    [("Access-Control-Allow-Origin", "*")]
   else match origin with
    | none => []
    | some o =>
      if o ≠ "" ∧ isOriginAllowed (some o) allowed then
        [("Access-Control-Allow-Origin", o)]
      else []) ++
  [("Vary", "Origin"),
   ("Access-Control-Allow-Methods", "POST, OPTIONS"),
   ("Access-Control-Allow-Headers", "Content-Type"),
   ("Access-Control-Max-Age", "86400")]

/-- src/api/chat.ts, lines 64-78: content-type-aware extraction of the text
field. `contentType` is already lowercased by the caller (line 61). The
`application/json` branch parses without an inner catch, so a thrown parse
error escapes as `Except.error`; the final best-effort branch catches its
own parse failure and yields empty text. -/
def decodeUserText (jsonParse : String → JsonParse) (contentType rawBody : String) :
    Except JsError String :=
  if startsWithStr contentType "text/plain" then
    .ok rawBody
  else if includesSubstr contentType "application/json" then
    match jsonParse rawBody with
    | .ok textField => .ok (textField.getD "")
    | .thrown m => .error ⟨none, some m⟩
  else
    match jsonParse rawBody with
    | .ok textField => .ok (textField.getD "")
    | .thrown _ => .ok ""

/-- src/api/chat.ts, catch block (lines 116-121): map a thrown error to a
response using `err?.status ?? 500` and `err?.message || 'Unknown error'`. -/
def renderError (cors : List (String × String)) (e : JsError) : Response :=
  ⟨e.status.getD 500, cors, .errorJson (jsOr e.message "Unknown error")⟩

/-- src/api/chat.ts, lines 96-97: the mock completion content, a pure
function of the validated user text. -/
def mockContent (userText : String) : String :=
  let preview := jsTrim (collapseWs (sliceTo userText 180))
  "Mocked response (DEV_ALLOW_MOCK=1). You said: \"" ++ preview ++
    (if userText.length > 180 then "…" else "") ++ "\""

/-- src/api/chat.ts, lines 92-115: the completion step on validated text —
the mock branch when mock mode is on and no key is configured, otherwise
the live upstream call (whose thrown errors reach the outer catch). -/
def invokeCompletion (env : Env) (upstream : String → String → Except JsError String)
    (cors : List (String × String)) (userText : String) : HandlerResult :=
  let systemPrompt := jsTrim (jsOr env.SYSTEM_PROMPT "You are a helpful and concise assistant.")
  let allowMock := env.DEV_ALLOW_MOCK = some "1"
  let hasKey := jsTruthy env.OPENAI_API_KEY
  if allowMock ∧ ¬hasKey then
    ⟨⟨200, cors ++ [("Content-Type", "application/json"), ("Cache-Control", "no-store")],
      .contentJson (mockContent userText)⟩, false⟩
  else
    match upstream systemPrompt userText with
    | .ok content =>
      ⟨⟨200, cors ++ [("Content-Type", "application/json"), ("Cache-Control", "no-store")],
        .contentJson content⟩, true⟩
    | .error e => ⟨renderError cors e, true⟩

/-- src/api/chat.ts, handler (lines 31-122): CORS headers first, OPTIONS
short-circuit, empty-allow-list guard, origin enforcement, credential/mock
guard, then decode, trim, validate, and invoke; decode and upstream errors
are rendered by the single outer catch. -/
def handler (env : Env) (jsonParse : String → JsonParse)
    (upstream : String → String → Except JsError String) (req : Req) : HandlerResult :=
  let allowedOrigins := parseAllowedOrigins env
  let origin := req.origin
  let cors := applyCors origin allowedOrigins
  if req.method = some "OPTIONS" then
    ⟨⟨204, cors, .empty⟩, false⟩
  else if allowedOrigins.length = 0 then
    ⟨⟨500, cors, .errorJson "Server misconfiguration: ALLOWED_ORIGINS is not set"⟩, false⟩
  else if ¬isOriginAllowed origin allowedOrigins then
    ⟨⟨403, cors, .errorJson "Origin not allowed"⟩, false⟩
  else if ¬jsTruthy env.OPENAI_API_KEY ∧ ¬(env.DEV_ALLOW_MOCK = some "1") then
    ⟨⟨500, cors, .errorJson "Server misconfiguration: OPENAI_API_KEY is not set"⟩, false⟩
  else
    let contentType := jsToLower (req.contentType.getD "")
    match decodeUserText jsonParse contentType req.body with
    | .error e => ⟨renderError cors e, false⟩
    | .ok t =>
      let userText := jsTrim t
      if userText = "" then
        ⟨⟨400, cors, .errorJson "Invalid request: text is required"⟩, false⟩
      else if userText.length > 8000 then
        ⟨⟨413, cors, .errorJson "Payload too large: text exceeds 8000 characters"⟩, false⟩
      else
        invokeCompletion env upstream cors userText

/-- The default byte ceiling of the local harness (readRequestBody's
maxBytes default, 1,000,000 bytes). -/
def maxBytesDefault : Nat := 1000000

/-- Outcome of buffering a request body in the local harness: the settled
promise, whether the connection was destroyed, and how many chunks were
pushed into the buffer before settling. -/
structure ReadOutcome where
  result : Except JsError String
  destroyed : Bool
  chunksBuffered : Nat
  deriving Repr

/-- Recursion of readRequestBody over the stream's data events: `total` is
the byte count so far and `acc` the buffered chunks in reverse order. The
ceiling check runs before the chunk is pushed; crossing it rejects with a
413-tagged error, destroys the connection, and stops consuming events. -/
def readRequestBodyGo (maxBytes : Nat) :
    List String → Nat → List String → ReadOutcome
  | [], _, acc => ⟨.ok (String.join acc.reverse), false, acc.length⟩
  | c :: cs, total, acc =>
    let total' := total + c.utf8ByteSize
    if total' > maxBytes then
      ⟨.error ⟨some 413, some "Payload too large"⟩, true, acc.length⟩
    else
      readRequestBodyGo maxBytes cs total' (c :: acc)

/-- Local harness, readRequestBody (lines 132-148 of the bundled server
file): buffer the data chunks, enforcing the byte ceiling incrementally;
on success the buffered chunks are concatenated as UTF-8 text. Chunks are
modelled as the strings they decode to, so a chunk's byte length is its
UTF-8 byte size. -/
def readRequestBody (chunks : List String) (maxBytes : Nat) : ReadOutcome :=
  readRequestBodyGo maxBytes chunks 0 []

/-- JS `req.url?.startsWith(p)`: false when the url is undefined. -/
def jsStartsWith (url : Option String) (p : String) : Bool :=
  match url with
  | none => false
  | some u => startsWithStr u p

/-- Outcome of one request to the local harness server: either a plain-text
response produced before the pipeline handler ran (404 route miss or body
rejection), or the result of running the handler on the buffered body. -/
inductive ServerResult where
  | plain (statusCode : Nat) (body : String)
  | piped (r : HandlerResult)
  deriving Repr, DecidableEq

/-- Whether the pipeline handler ran for this server outcome. -/
def ServerResult.handlerInvoked : ServerResult → Bool
  | .plain _ _ => false
  | .piped _ => true

/-- Local harness, http.createServer callback (lines 188-212): 404 on a
route miss before consuming the body; otherwise buffer the body, mapping a
rejection to `err.status ?? 400` with the error message as plain text, and
only on success construct the request-like object and run the handler. -/
def serverStep (env : Env) (jsonParse : String → JsonParse)
    (upstream : String → String → Except JsError String)
    (url method origin contentType : Option String)
    (chunks : List String) : ServerResult :=
  if ¬jsStartsWith url "/api/chat" then
    .plain 404 "Not Found"
  else
    match (readRequestBody chunks maxBytesDefault).result with
    | .error e => .plain (e.status.getD 400) (e.message.getD "")
    | .ok rawBody =>
      .piped (handler env jsonParse upstream ⟨method, origin, contentType, rawBody⟩)

/-! Concrete fixtures used by witness theorems. The jp-functions are
concrete instances of the JSON.parse parameter; each matches the real
behavior of JSON.parse on the concrete bodies it is used with. -/

/-- JSON.parse yielding a value with no string `text` field. -/
def jpNoText : String → JsonParse := fun _ => .ok none

/-- JSON.parse yielding an object whose `text` field is "hello" (e.g. the
real behavior on the body consisting of text hello in a JSON object). -/
def jpHello : String → JsonParse := fun _ => .ok (some "hello")

/-- JSON.parse on invalid JSON such as the body "not-json": it throws a
SyntaxError, which carries a message but no numeric status field. -/
def jpSyntaxError : String → JsonParse :=
  fun _ => .thrown "Unexpected token o in JSON at position 1"

/-- An upstream call that returns content. -/
def upOk : String → String → Except JsError String := fun _ _ => .ok "live content"

/-- An upstream call that throws an error carrying status 502. -/
def upBadGateway : String → String → Except JsError String :=
  fun _ _ => .error ⟨some 502, some "Bad gateway"⟩

/-- Mock configuration: one allowed origin, no credential, mock enabled. -/
def envMock : Env := ⟨some "https://a.com", none, some "1", none⟩

/-- Live configuration: one allowed origin, credential set, mock off. -/
def envLive : Env := ⟨some "https://a.com", some "sk-test", none, none⟩

/-- Misconfigured: ALLOWED_ORIGINS set to the empty string. -/
def envNoOrigins : Env := ⟨some "", none, some "1", none⟩

/-- Nothing configured at all. -/
def envUnset : Env := ⟨none, none, none, none⟩

/-- Wildcard allow-list with a credential. -/
def envStar : Env := ⟨some "*", some "sk-test", none, none⟩

/-- A request whose body the handler will read as JSON. -/
def reqJsonPost : Req := ⟨some "POST", some "https://a.com", some "application/json", "x"⟩

/-- JSON.parse yielding a text field of exactly 8000 characters. -/
def jpLong8000 : String → JsonParse :=
  fun _ => .ok (some ⟨List.replicate 8000 'a'⟩)

/-- JSON.parse yielding a text field of 8001 characters. -/
def jpLong8001 : String → JsonParse :=
  fun _ => .ok (some ⟨List.replicate 8001 'a'⟩)

/-- A body chunk of 1,000,001 ASCII bytes — one past the harness byte
ceiling. -/
def bigChunk : String := ⟨List.replicate 1000001 'a'⟩

/-! Theorems. -/

/-- C2: a request with method OPTIONS is answered 204 with an empty body
and exactly the CORS headers, for every environment (any allow-list,
including empty, any credential state), every JSON.parse behavior and
every upstream; the upstream is never invoked and no configuration error
response can be produced. -/
theorem c2_options_short_circuit (env : Env) (jsonParse : String → JsonParse)
    (upstream : String → String → Except JsError String) (req : Req)
    (h : req.method = some "OPTIONS") :
    handler env jsonParse upstream req =
      ⟨⟨204, applyCors req.origin (parseAllowedOrigins env), .empty⟩, false⟩ := by
  simp [handler, h]

/-- Witness for C2: a concrete OPTIONS request against a fully unset
environment (empty allow-list, no credential) still gets the bare 204. -/
theorem c2_witness :
    handler envUnset jpNoText upOk ⟨some "OPTIONS", some "https://a.com", none, ""⟩ =
      ⟨⟨204, [("Vary", "Origin"),
              ("Access-Control-Allow-Methods", "POST, OPTIONS"),
              ("Access-Control-Allow-Headers", "Content-Type"),
              ("Access-Control-Max-Age", "86400")], .empty⟩, false⟩ := by
  rw [c2_options_short_circuit envUnset jpNoText upOk _ rfl]; decide

/-- C4: for every non-OPTIONS request, an empty parsed allow-list yields
the 500 ALLOWED_ORIGINS misconfiguration response whatever the origin
header is — in particular the 403 origin rejection is never produced in
this situation, so the check precedes origin enforcement. -/
theorem c4_empty_allowlist_500 (env : Env) (jsonParse : String → JsonParse)
    (upstream : String → String → Except JsError String) (req : Req)
    (hm : req.method ≠ some "OPTIONS")
    (he : parseAllowedOrigins env = []) :
    handler env jsonParse upstream req =
      ⟨⟨500, applyCors req.origin [],
        .errorJson "Server misconfiguration: ALLOWED_ORIGINS is not set"⟩, false⟩ := by
  simp [handler, hm, he]

/-- Witness for C4: with ALLOWED_ORIGINS set to the empty string, a POST
from an arbitrary origin gets the 500 misconfiguration response. -/
theorem c4_witness :
    handler envNoOrigins jpHello upOk ⟨some "POST", some "https://a.com", some "application/json", "x"⟩ =
      ⟨⟨500, [("Vary", "Origin"),
              ("Access-Control-Allow-Methods", "POST, OPTIONS"),
              ("Access-Control-Allow-Headers", "Content-Type"),
              ("Access-Control-Max-Age", "86400")],
        .errorJson "Server misconfiguration: ALLOWED_ORIGINS is not set"⟩, false⟩ := by
  rw [c4_empty_allowlist_500 envNoOrigins jpHello upOk _ (by decide) (by decide)]; decide

/-- A request origin that is absent, empty, or not a member of a
wildcard-free allow-list is not allowed. -/
theorem isOriginAllowed_eq_false_of_not_mem {origin : Option String}
    {allowed : List String} (hw : "*" ∉ allowed)
    (ho : ∀ o, origin = some o → o ∉ allowed) :
    isOriginAllowed origin allowed = false := by
  cases origin with
  | none => simp [isOriginAllowed, hw]
  | some o =>
    by_cases he : o = ""
    · simp [isOriginAllowed, hw, he]
    · simp [isOriginAllowed, hw, he, ho o rfl]

/-- C3: under a non-empty allow-list without the wildcard, a non-OPTIONS
request whose origin header is absent or not an exact member of the list
gets the 403 origin rejection, the upstream is never invoked, and the
response is a fixed function of the origin and allow-list alone — in
particular it is identical whether or not a credential is configured, so a
disallowed origin cannot observe credential state. -/
theorem c3_disallowed_origin_403 (env : Env) (jsonParse : String → JsonParse)
    (upstream : String → String → Except JsError String) (req : Req)
    (hm : req.method ≠ some "OPTIONS")
    (hne : parseAllowedOrigins env ≠ [])
    (hw : "*" ∉ parseAllowedOrigins env)
    (ho : ∀ o, req.origin = some o → o ∉ parseAllowedOrigins env) :
    handler env jsonParse upstream req =
      ⟨⟨403, applyCors req.origin (parseAllowedOrigins env),
        .errorJson "Origin not allowed"⟩, false⟩ := by
  have ha := isOriginAllowed_eq_false_of_not_mem hw ho
  simp [handler, hm, ha, hne, List.length_eq_zero]

/-- Witness for C3: with allow-list https://a.com and a credential
configured, a POST from https://evil.com is rejected 403 with no
upstream call. -/
theorem c3_witness :
    handler envLive jpHello upOk ⟨some "POST", some "https://evil.com", some "application/json", "x"⟩ =
      ⟨⟨403, [("Vary", "Origin"),
              ("Access-Control-Allow-Methods", "POST, OPTIONS"),
              ("Access-Control-Allow-Headers", "Content-Type"),
              ("Access-Control-Max-Age", "86400")],
        .errorJson "Origin not allowed"⟩, false⟩ := by
  rw [c3_disallowed_origin_403 envLive jpHello upOk _ (by decide) (by decide) (by decide)
    (by intro o h; rw [show o = "https://evil.com" from (Option.some.inj h).symm]; decide)]
  decide

/-- With the wildcard in the allow-list, applyCors emits the literal
wildcard allow-origin header followed by the fixed headers. -/
theorem applyCors_wildcard (origin : Option String) (allowed : List String)
    (hw : "*" ∈ allowed) :
    applyCors origin allowed =
      [("Access-Control-Allow-Origin", "*"), ("Vary", "Origin"),
       ("Access-Control-Allow-Methods", "POST, OPTIONS"),
       ("Access-Control-Allow-Headers", "Content-Type"),
       ("Access-Control-Max-Age", "86400")] := by
  simp [applyCors, hw]

/-- Every handler response's header list extends the CORS headers applied
up front. -/
theorem handler_headers_eq (env : Env) (jsonParse : String → JsonParse)
    (upstream : String → String → Except JsError String) (req : Req) :
    ∃ extra, (handler env jsonParse upstream req).response.headers =
      applyCors req.origin (parseAllowedOrigins env) ++ extra := by
  simp only [handler, invokeCompletion, renderError]
  repeat' split
  all_goals
    first
      | exact ⟨[], (List.append_nil _).symm⟩
      | exact ⟨[("Content-Type", "application/json"), ("Cache-Control", "no-store")], rfl⟩

/-- C7: if the allow-list contains the wildcard token then every origin —
present or absent — passes the origin check, applyCors emits the literal
wildcard allow-origin header (not the echoed origin), and every handler
response carries that literal wildcard header. -/
theorem c7_wildcard :
    (∀ (origin : Option String) (allowed : List String), "*" ∈ allowed →
        isOriginAllowed origin allowed = true) ∧
    (∀ (origin : Option String) (allowed : List String), "*" ∈ allowed →
        applyCors origin allowed =
          [("Access-Control-Allow-Origin", "*"), ("Vary", "Origin"),
           ("Access-Control-Allow-Methods", "POST, OPTIONS"),
           ("Access-Control-Allow-Headers", "Content-Type"),
           ("Access-Control-Max-Age", "86400")]) ∧
    (∀ (env : Env) (jsonParse : String → JsonParse)
        (upstream : String → String → Except JsError String) (req : Req),
        "*" ∈ parseAllowedOrigins env →
        ("Access-Control-Allow-Origin", "*") ∈
          (handler env jsonParse upstream req).response.headers) := by
  refine ⟨?_, applyCors_wildcard, ?_⟩
  · intro origin allowed hw
    simp [isOriginAllowed, hw]
  · intro env jsonParse upstream req hw
    obtain ⟨extra, hext⟩ := handler_headers_eq env jsonParse upstream req
    rw [hext, applyCors_wildcard _ _ hw]
    simp

/-- Witness for C7: with ALLOWED_ORIGINS set to the wildcard, a request
with no origin header at all passes the origin check and a concrete
handler run carries the literal wildcard header. -/
theorem c7_witness :
    isOriginAllowed none ["*"] = true ∧
    applyCors none ["*"] =
      [("Access-Control-Allow-Origin", "*"), ("Vary", "Origin"),
       ("Access-Control-Allow-Methods", "POST, OPTIONS"),
       ("Access-Control-Allow-Headers", "Content-Type"),
       ("Access-Control-Max-Age", "86400")] ∧
    ("Access-Control-Allow-Origin", "*") ∈
      (handler envStar jpHello upOk ⟨some "POST", none, some "application/json", "x"⟩).response.headers :=
  ⟨c7_wildcard.1 none ["*"] (by decide),
   c7_wildcard.2.1 none ["*"] (by decide),
   c7_wildcard.2.2 envStar jpHello upOk _ (by decide)⟩

/-- C10: the handler never tests for POST: any method other than OPTIONS
runs the identical pipeline, i.e. the handler result coincides with the
result for the same request with method POST. -/
theorem c10_method_ignored (env : Env) (jsonParse : String → JsonParse)
    (upstream : String → String → Except JsError String) (m : String)
    (origin contentType : Option String) (body : String)
    (h : m ≠ "OPTIONS") :
    handler env jsonParse upstream ⟨some m, origin, contentType, body⟩ =
      handler env jsonParse upstream ⟨some "POST", origin, contentType, body⟩ := by
  simp [handler, h]

/-- Witness for C10: a concrete GET with an allowed origin, valid mock
configuration and a decodable JSON body behaves exactly like the POST and
in fact receives the 200 mock content. -/
theorem c10_witness :
    (handler envMock jpHello upOk ⟨some "GET", some "https://a.com", some "application/json", "x"⟩ =
      handler envMock jpHello upOk reqJsonPost) ∧
    (handler envMock jpHello upOk ⟨some "GET", some "https://a.com", some "application/json", "x"⟩).response.status = 200 :=
  ⟨c10_method_ignored envMock jpHello upOk "GET" (some "https://a.com")
      (some "application/json") "x" (by decide), by rfl⟩

/-- dropWhile with a predicate false on every element is the identity. -/
theorem dropWhile_eq_self_of_no_ws (l : List Char)
    (h : ∀ c ∈ l, c.isWhitespace = false) :
    l.dropWhile Char.isWhitespace = l := by
  cases l with
  | nil => rfl
  | cons c cs => simp [List.dropWhile_cons, h c (by simp)]

/-- jsTrim does not change a string without whitespace characters. -/
theorem jsTrim_eq_self_of_no_ws (s : String)
    (h : ∀ c ∈ s.data, c.isWhitespace = false) :
    jsTrim s = s := by
  unfold jsTrim
  rw [dropWhile_eq_self_of_no_ws _ h,
    dropWhile_eq_self_of_no_ws _ (fun c hc => h c (List.mem_reverse.mp hc)),
    List.reverse_reverse]

/-- jsTrim fixes a run of the letter a. -/
theorem jsTrim_replicate_a (n : Nat) :
    jsTrim ⟨List.replicate n 'a'⟩ = ⟨List.replicate n 'a'⟩ :=
  jsTrim_eq_self_of_no_ws _ (fun c hc => by rw [List.eq_of_mem_replicate hc]; decide)

/-- The length of a string made of n copies of a character is n. -/
theorem length_mk_replicate (n : Nat) :
    (⟨List.replicate n 'a'⟩ : String).length = n := by
  show (List.replicate n 'a').length = n
  simp

/-- The completion step takes the mock branch exactly when mock mode is on
and no credential is configured, producing the 200 mock content without an
upstream call. -/
theorem invokeCompletion_mock (env : Env)
    (upstream : String → String → Except JsError String)
    (cors : List (String × String)) (txt : String)
    (h1 : env.DEV_ALLOW_MOCK = some "1")
    (h2 : jsTruthy env.OPENAI_API_KEY = false) :
    invokeCompletion env upstream cors txt =
      ⟨⟨200, cors ++ [("Content-Type", "application/json"), ("Cache-Control", "no-store")],
        .contentJson (mockContent txt)⟩, false⟩ := by
  simp [invokeCompletion, h1, h2]

/-- C5: for a request that reaches validation (non-OPTIONS, non-empty
allow-list, allowed origin, credential-or-mock configured) with decoded
text t: empty trimmed text yields the 400 required-text error, trimmed
text longer than 8000 characters yields the 413 payload error, and
trimmed text of exactly 8000 characters passes through to the completion
invoker. -/
theorem c5_validation_boundary (env : Env) (jsonParse : String → JsonParse)
    (upstream : String → String → Except JsError String) (req : Req) (t : String)
    (hm : req.method ≠ some "OPTIONS")
    (hne : parseAllowedOrigins env ≠ [])
    (ha : isOriginAllowed req.origin (parseAllowedOrigins env) = true)
    (hk : jsTruthy env.OPENAI_API_KEY = true ∨ env.DEV_ALLOW_MOCK = some "1")
    (hd : decodeUserText jsonParse (jsToLower (req.contentType.getD "")) req.body = .ok t) :
    (jsTrim t = "" →
       handler env jsonParse upstream req =
         ⟨⟨400, applyCors req.origin (parseAllowedOrigins env),
           .errorJson "Invalid request: text is required"⟩, false⟩) ∧
    ((jsTrim t).length > 8000 →
       handler env jsonParse upstream req =
         ⟨⟨413, applyCors req.origin (parseAllowedOrigins env),
           .errorJson "Payload too large: text exceeds 8000 characters"⟩, false⟩) ∧
    ((jsTrim t).length = 8000 →
       handler env jsonParse upstream req =
         invokeCompletion env upstream
           (applyCors req.origin (parseAllowedOrigins env)) (jsTrim t)) := by
  refine ⟨?_, ?_, ?_⟩
  · intro hv
    rcases hk with hkey | hmk
    · simp [handler, hm, hne, List.length_eq_zero, ha, hd, hv, hkey]
    · simp [handler, hm, hne, List.length_eq_zero, ha, hd, hv, hmk]
  · intro hv
    have hv1 : jsTrim t ≠ "" := by
      intro h
      rw [h] at hv
      exact absurd hv (by decide)
    rcases hk with hkey | hmk
    · simp [handler, hm, hne, List.length_eq_zero, ha, hd, hv, hv1, hkey]
    · simp [handler, hm, hne, List.length_eq_zero, ha, hd, hv, hv1, hmk]
  · intro hv
    have hv1 : jsTrim t ≠ "" := by
      intro h
      rw [h] at hv
      exact absurd hv (by decide)
    have hv2 : ¬((jsTrim t).length > 8000) := by omega
    rcases hk with hkey | hmk
    · simp [handler, hm, hne, List.length_eq_zero, ha, hd, hv1, hv2, hkey]
    · simp [handler, hm, hne, List.length_eq_zero, ha, hd, hv1, hv2, hmk]

/-- Witness for C5: against the mock configuration, a decoded text field
that trims to empty gets 400; a 8001-character text gets 413; a
8000-character text passes validation and reaches the invoker (here the
mock branch, hence status 200). -/
theorem c5_witness :
    handler envMock jpNoText upOk reqJsonPost =
      ⟨⟨400, [("Access-Control-Allow-Origin", "https://a.com"), ("Vary", "Origin"),
              ("Access-Control-Allow-Methods", "POST, OPTIONS"),
              ("Access-Control-Allow-Headers", "Content-Type"),
              ("Access-Control-Max-Age", "86400")],
        .errorJson "Invalid request: text is required"⟩, false⟩ ∧
    (handler envMock jpLong8001 upOk reqJsonPost).response.status = 413 ∧
    (handler envMock jpLong8000 upOk reqJsonPost).response.status = 200 := by
  refine ⟨?_, ?_, ?_⟩
  · rw [(c5_validation_boundary envMock jpNoText upOk reqJsonPost ""
        (by decide) (by decide) (by decide) (Or.inr rfl) rfl).1 rfl]
    decide
  · rw [(c5_validation_boundary envMock jpLong8001 upOk reqJsonPost
        ⟨List.replicate 8001 'a'⟩
        (by decide) (by decide) (by decide) (Or.inr rfl) rfl).2.1
        (by rw [jsTrim_replicate_a, length_mk_replicate]; omega)]
  · rw [(c5_validation_boundary envMock jpLong8000 upOk reqJsonPost
        ⟨List.replicate 8000 'a'⟩
        (by decide) (by decide) (by decide) (Or.inr rfl) rfl).2.2
        (by rw [jsTrim_replicate_a]; exact length_mk_replicate 8000),
      invokeCompletion_mock envMock upOk _ _ rfl rfl]

/-- When mock mode is off or a credential is configured, the completion
step takes the live branch, so the upstream call is invoked. -/
theorem invokeCompletion_live (env : Env)
    (upstream : String → String → Except JsError String)
    (cors : List (String × String)) (txt : String)
    (h : ¬(env.DEV_ALLOW_MOCK = some "1" ∧ jsTruthy env.OPENAI_API_KEY = false)) :
    (invokeCompletion env upstream cors txt).upstreamCalled = true := by
  have h2 : ¬(env.DEV_ALLOW_MOCK = some "1" ∧ ¬jsTruthy env.OPENAI_API_KEY = true) := by
    simpa [Bool.not_eq_true] using h
  simp only [invokeCompletion, if_neg h2]
  split <;> rfl

/-- C6: for a request that reaches the completion step, the mock branch is
taken exactly when mock mode is enabled and no credential is configured:
in that case the response is 200 with content mockContent of the validated
text — a pure function of that text alone, so identical inputs give
identical content — and the content consists of the echo of the first 180
characters with whitespace collapsed, followed by the truncation marker
precisely when the input exceeds 180 characters; in every other
configuration reaching this step, the upstream call is invoked instead. -/
theorem c6_mock_path (env : Env) (jsonParse : String → JsonParse)
    (upstream : String → String → Except JsError String) (req : Req) (t : String)
    (hm : req.method ≠ some "OPTIONS")
    (hne : parseAllowedOrigins env ≠ [])
    (ha : isOriginAllowed req.origin (parseAllowedOrigins env) = true)
    (hk : jsTruthy env.OPENAI_API_KEY = true ∨ env.DEV_ALLOW_MOCK = some "1")
    (hd : decodeUserText jsonParse (jsToLower (req.contentType.getD "")) req.body = .ok t)
    (hv1 : jsTrim t ≠ "") (hv2 : (jsTrim t).length ≤ 8000) :
    ((env.DEV_ALLOW_MOCK = some "1" ∧ jsTruthy env.OPENAI_API_KEY = false) →
       handler env jsonParse upstream req =
         ⟨⟨200, applyCors req.origin (parseAllowedOrigins env) ++
             [("Content-Type", "application/json"), ("Cache-Control", "no-store")],
           .contentJson (mockContent (jsTrim t))⟩, false⟩ ∧
       ∃ marker,
         mockContent (jsTrim t) =
           "Mocked response (DEV_ALLOW_MOCK=1). You said: \"" ++
             jsTrim (collapseWs (sliceTo (jsTrim t) 180)) ++ marker ++ "\"" ∧
         (marker = "…" ↔ (jsTrim t).length > 180) ∧
         (marker = "" ↔ ¬(jsTrim t).length > 180)) ∧
    (¬(env.DEV_ALLOW_MOCK = some "1" ∧ jsTruthy env.OPENAI_API_KEY = false) →
       (handler env jsonParse upstream req).upstreamCalled = true) := by
  have hv2' : ¬((jsTrim t).length > 8000) := by omega
  constructor
  · rintro ⟨hmk, hkey⟩
    constructor
    · rw [show handler env jsonParse upstream req =
            invokeCompletion env upstream
              (applyCors req.origin (parseAllowedOrigins env)) (jsTrim t) from by
          simp [handler, hm, hne, List.length_eq_zero, ha, hd, hv1, hv2', hmk],
        invokeCompletion_mock env upstream _ _ hmk hkey]
    · refine ⟨if (jsTrim t).length > 180 then "…" else "", ?_, ?_, ?_⟩
      · rfl
      · by_cases h : (jsTrim t).length > 180 <;> simp [h]
      · by_cases h : (jsTrim t).length > 180 <;> simp [h]
  · intro hnot
    rcases hk with hkey | hmk
    · rw [show handler env jsonParse upstream req =
            invokeCompletion env upstream
              (applyCors req.origin (parseAllowedOrigins env)) (jsTrim t) from by
          simp [handler, hm, hne, List.length_eq_zero, ha, hd, hv1, hv2', hkey]]
      exact invokeCompletion_live env upstream _ _ hnot
    · rw [show handler env jsonParse upstream req =
            invokeCompletion env upstream
              (applyCors req.origin (parseAllowedOrigins env)) (jsTrim t) from by
          simp [handler, hm, hne, List.length_eq_zero, ha, hd, hv1, hv2', hmk]]
      exact invokeCompletion_live env upstream _ _ hnot

/-- Witness for C6: a concrete mock-mode request with text hello gets the
200 mock echo without the truncation marker, and the same request against
the live configuration invokes the upstream. -/
theorem c6_witness :
    (handler envMock jpHello upOk reqJsonPost).response.body =
      .contentJson "Mocked response (DEV_ALLOW_MOCK=1). You said: \"hello\"" ∧
    (handler envLive jpHello upOk reqJsonPost).upstreamCalled = true := by
  constructor
  · rw [((c6_mock_path envMock jpHello upOk reqJsonPost "hello"
        (by decide) (by decide) (by decide) (Or.inr rfl) rfl (by decide) (by decide)).1
        ⟨rfl, rfl⟩).1]
    decide
  · exact (c6_mock_path envLive jpHello upOk reqJsonPost "hello"
        (by decide) (by decide) (by decide) (Or.inl (by decide)) rfl (by decide) (by decide)).2
        (by intro hc; exact absurd hc.1 (by decide))

/-- C8: exceptions from body decoding and from the upstream invocation are
rendered by the single outer catch: the response status is the error's
numeric status field when present and 500 otherwise, and the JSON error
message is the error's message when that is a non-empty string and the
fixed text Unknown error when the message is absent or empty (JS
truthiness of err?.message). Validation itself throws nothing: it returns
its 400/413 responses directly, so the claim is vacuous there. -/
theorem c8_error_mapping (env : Env) (jsonParse : String → JsonParse)
    (upstream : String → String → Except JsError String) (req : Req) (e : JsError)
    (hm : req.method ≠ some "OPTIONS")
    (hne : parseAllowedOrigins env ≠ [])
    (ha : isOriginAllowed req.origin (parseAllowedOrigins env) = true)
    (hk : jsTruthy env.OPENAI_API_KEY = true ∨ env.DEV_ALLOW_MOCK = some "1") :
    (decodeUserText jsonParse (jsToLower (req.contentType.getD "")) req.body = .error e →
       handler env jsonParse upstream req =
         ⟨renderError (applyCors req.origin (parseAllowedOrigins env)) e, false⟩) ∧
    (∀ t, decodeUserText jsonParse (jsToLower (req.contentType.getD "")) req.body = .ok t →
       jsTrim t ≠ "" → (jsTrim t).length ≤ 8000 →
       ¬(env.DEV_ALLOW_MOCK = some "1" ∧ jsTruthy env.OPENAI_API_KEY = false) →
       (∀ sp ut, upstream sp ut = .error e) →
       handler env jsonParse upstream req =
         ⟨renderError (applyCors req.origin (parseAllowedOrigins env)) e, true⟩) ∧
    ((renderError (applyCors req.origin (parseAllowedOrigins env)) e).status =
        e.status.getD 500 ∧
     ∃ m, (renderError (applyCors req.origin (parseAllowedOrigins env)) e).body =
        .errorJson m ∧
       (∀ s, e.message = some s → s ≠ "" → m = s) ∧
       (e.message = none ∨ e.message = some "" → m = "Unknown error")) :=
  by
  refine ⟨?_, ?_, ?_, ?_⟩
  · intro hd
    rcases hk with hkey | hmk
    · simp [handler, hm, hne, List.length_eq_zero, ha, hd, hkey]
    · simp [handler, hm, hne, List.length_eq_zero, ha, hd, hmk]
  · intro t hd hv1 hv2 hlive hu
    have hv2' : ¬((jsTrim t).length > 8000) := by omega
    have hstep : handler env jsonParse upstream req =
        invokeCompletion env upstream
          (applyCors req.origin (parseAllowedOrigins env)) (jsTrim t) := by
      rcases hk with hkey | hmk
      · simp [handler, hm, hne, List.length_eq_zero, ha, hd, hv1, hv2', hkey]
      · simp [handler, hm, hne, List.length_eq_zero, ha, hd, hv1, hv2', hmk]
    have h2 : ¬(env.DEV_ALLOW_MOCK = some "1" ∧ ¬jsTruthy env.OPENAI_API_KEY = true) := by
      simpa [Bool.not_eq_true] using hlive
    rw [hstep]
    simp only [invokeCompletion, if_neg h2, hu]
  · rfl
  · refine ⟨jsOr e.message "Unknown error", rfl, ?_, ?_⟩
    · intro s hs hne2
      rw [hs]
      simp [jsOr, hne2]
    · rintro (hn | hn) <;> simp [hn, jsOr]

/-- Witness for C8: with the live configuration and an upstream throwing a
status-502 error with message Bad gateway, the handler responds 502 with
that message; and with an upstream throwing a bare error (no status, empty
message), it responds 500 Unknown error. -/
theorem c8_witness :
    handler envLive jpHello upBadGateway reqJsonPost =
      ⟨⟨502, [("Access-Control-Allow-Origin", "https://a.com"), ("Vary", "Origin"),
              ("Access-Control-Allow-Methods", "POST, OPTIONS"),
              ("Access-Control-Allow-Headers", "Content-Type"),
              ("Access-Control-Max-Age", "86400")],
        .errorJson "Bad gateway"⟩, true⟩ ∧
    (renderError [] ⟨none, some ""⟩).status = 500 := by
  constructor
  · rw [(c8_error_mapping envLive jpHello upBadGateway reqJsonPost
        ⟨some 502, some "Bad gateway"⟩
        (by decide) (by decide) (by decide) (Or.inl (by decide))).2.1 "hello"
        rfl (by decide) (by decide) (by intro hc; exact absurd hc.1 (by decide))
        (fun sp ut => rfl)]
    decide
  · exact (c8_error_mapping envLive jpHello upBadGateway reqJsonPost ⟨none, some ""⟩
        (by decide) (by decide) (by decide) (Or.inl (by decide))).2.2.1.trans rfl

/-- C1 counterexample: the claim says the decoder never throws and that an
application/json request with invalid JSON body yields empty text and a
400 text-required response. In the code the application/json branch calls
JSON.parse without an inner catch, so on the body not-json the decoder
yields a thrown-error result and the handler (mock configuration, allowed
origin) responds 500 with the parse message — not 400. -/
theorem c1_counterexample :
    decodeUserText jpSyntaxError "application/json" "not-json" =
      .error ⟨none, some "Unexpected token o in JSON at position 1"⟩ ∧
    (handler envMock jpSyntaxError upOk
        ⟨some "POST", some "https://a.com", some "application/json", "not-json"⟩).response.status
      = 500 ∧
    (handler envMock jpSyntaxError upOk
        ⟨some "POST", some "https://a.com", some "application/json", "not-json"⟩).response.body
      = .errorJson "Unexpected token o in JSON at position 1" ∧
    (handler envMock jpSyntaxError upOk
        ⟨some "POST", some "https://a.com", some "application/json", "not-json"⟩).response.status
      ≠ 400 := by
  refine ⟨rfl, by decide, by decide, by decide⟩

/-- C1 amended: the decoder is best-effort (never yields a thrown error)
for every content type not containing application/json; but when the
content type contains application/json (and is not text/plain-prefixed)
and JSON.parse throws on the raw body, the exception escapes the decoder
and the handler maps it through the outer catch: status 500 (a
SyntaxError carries no status field) with the parse error message. -/
theorem c1_decoder_error_propagation :
    (∀ (jsonParse : String → JsonParse) (contentType rawBody : String),
        includesSubstr contentType "application/json" = false →
        ∃ s, decodeUserText jsonParse contentType rawBody = .ok s) ∧
    (∀ (env : Env) (jsonParse : String → JsonParse)
        (upstream : String → String → Except JsError String) (req : Req) (m : String),
        req.method ≠ some "OPTIONS" →
        parseAllowedOrigins env ≠ [] →
        isOriginAllowed req.origin (parseAllowedOrigins env) = true →
        (jsTruthy env.OPENAI_API_KEY = true ∨ env.DEV_ALLOW_MOCK = some "1") →
        startsWithStr (jsToLower (req.contentType.getD "")) "text/plain" = false →
        includesSubstr (jsToLower (req.contentType.getD "")) "application/json" = true →
        jsonParse req.body = .thrown m →
        handler env jsonParse upstream req =
          ⟨⟨500, applyCors req.origin (parseAllowedOrigins env),
            .errorJson (jsOr (some m) "Unknown error")⟩, false⟩) := by
  constructor
  · intro jsonParse ct raw h
    cases hjp : jsonParse raw with
    | ok tf =>
      by_cases h1 : startsWithStr ct "text/plain" = true
      · exact ⟨raw, by simp [decodeUserText, h1]⟩
      · exact ⟨tf.getD "", by simp [decodeUserText, h1, h, hjp]⟩
    | thrown m =>
      by_cases h1 : startsWithStr ct "text/plain" = true
      · exact ⟨raw, by simp [decodeUserText, h1]⟩
      · exact ⟨"", by simp [decodeUserText, h1, h, hjp]⟩
  · intro env jsonParse upstream req m hm hne ha hk hsw hincl hjp
    have hd : decodeUserText jsonParse (jsToLower (req.contentType.getD "")) req.body =
        .error ⟨none, some m⟩ := by
      simp [decodeUserText, hsw, hincl, hjp]
    rcases hk with hkey | hmk
    · simp [handler, hm, hne, List.length_eq_zero, ha, hd, hkey, renderError]
    · simp [handler, hm, hne, List.length_eq_zero, ha, hd, hmk, renderError]

/-- Witness for C1 amended: a text/xml request never yields a decode
error, and the concrete not-json application/json request from the
counterexample is answered 500 with the parse message. -/
theorem c1_witness :
    (∃ s, decodeUserText jpSyntaxError "text/xml" "not-json" = .ok s) ∧
    handler envMock jpSyntaxError upOk
        ⟨some "POST", some "https://a.com", some "application/json", "not-json"⟩ =
      ⟨⟨500, [("Access-Control-Allow-Origin", "https://a.com"), ("Vary", "Origin"),
              ("Access-Control-Allow-Methods", "POST, OPTIONS"),
              ("Access-Control-Allow-Headers", "Content-Type"),
              ("Access-Control-Max-Age", "86400")],
        .errorJson "Unexpected token o in JSON at position 1"⟩, false⟩ := by
  constructor
  · exact c1_decoder_error_propagation.1 jpSyntaxError "text/xml" "not-json" (by decide)
  · rw [c1_decoder_error_propagation.2 envMock jpSyntaxError upOk _
        "Unexpected token o in JSON at position 1"
        (by decide) (by decide) (by decide) (Or.inr rfl) (by decide) (by decide) rfl]
    decide

/-- Crossing the byte ceiling at any point of the chunk stream settles
readRequestBody with the 413-tagged rejection and a destroyed
connection. -/
theorem readRequestBodyGo_crossed (maxBytes : Nat) :
    ∀ (chunks : List String) (total : Nat) (acc : List String),
      total ≤ maxBytes →
      total + (chunks.map String.utf8ByteSize).sum > maxBytes →
      ∃ k, readRequestBodyGo maxBytes chunks total acc =
        ⟨.error ⟨some 413, some "Payload too large"⟩, true, k⟩ := by
  intro chunks
  induction chunks with
  | nil =>
    intro total acc h1 h2
    simp only [List.map_nil, List.sum_nil, Nat.add_zero] at h2
    exact absurd h2 (by omega)
  | cons c cs ih =>
    intro total acc h1 h2
    by_cases hc : total + c.utf8ByteSize > maxBytes
    · exact ⟨acc.length, by simp [readRequestBodyGo, hc]⟩
    · have h2' : (total + c.utf8ByteSize) + (cs.map String.utf8ByteSize).sum > maxBytes := by
        simp only [List.map_cons, List.sum_cons] at h2
        omega
      obtain ⟨k, hk⟩ := ih (total + c.utf8ByteSize) (c :: acc) (by omega) h2'
      exact ⟨k, by simp [readRequestBodyGo, hc, hk]⟩

/-- Buffering aborts as soon as the ceiling is crossed: chunks arriving
after the crossing do not change the outcome at all. -/
theorem readRequestBodyGo_append (maxBytes : Nat) :
    ∀ (chunks extra : List String) (total : Nat) (acc : List String),
      total ≤ maxBytes →
      total + (chunks.map String.utf8ByteSize).sum > maxBytes →
      readRequestBodyGo maxBytes (chunks ++ extra) total acc =
        readRequestBodyGo maxBytes chunks total acc := by
  intro chunks
  induction chunks with
  | nil =>
    intro extra total acc h1 h2
    simp only [List.map_nil, List.sum_nil, Nat.add_zero] at h2
    exact absurd h2 (by omega)
  | cons c cs ih =>
    intro extra total acc h1 h2
    by_cases hc : total + c.utf8ByteSize > maxBytes
    · simp [readRequestBodyGo, hc]
    · have h2' : (total + c.utf8ByteSize) + (cs.map String.utf8ByteSize).sum > maxBytes := by
        simp only [List.map_cons, List.sum_cons] at h2
        omega
      simp [readRequestBodyGo, hc, ih extra (total + c.utf8ByteSize) (c :: acc) (by omega) h2']

/-- C9: in the local harness, a request on the chat route whose body
chunks total more than the byte ceiling settles buffering with the
413-tagged rejection and a destroyed connection, the outcome is already
fixed at the crossing (appending further chunks changes nothing), the
server responds 413 Payload too large, and the pipeline handler is never
invoked for the request. -/
theorem c9_byte_ceiling (env : Env) (jsonParse : String → JsonParse)
    (upstream : String → String → Except JsError String)
    (u : String) (method origin contentType : Option String)
    (chunks extra : List String)
    (hurl : startsWithStr u "/api/chat" = true)
    (hsz : (chunks.map String.utf8ByteSize).sum > maxBytesDefault) :
    (∃ k, readRequestBody chunks maxBytesDefault =
       ⟨.error ⟨some 413, some "Payload too large"⟩, true, k⟩) ∧
    readRequestBody (chunks ++ extra) maxBytesDefault =
      readRequestBody chunks maxBytesDefault ∧
    serverStep env jsonParse upstream (some u) method origin contentType chunks =
      .plain 413 "Payload too large" ∧
    (serverStep env jsonParse upstream (some u) method origin contentType
        chunks).handlerInvoked = false := by
  obtain ⟨k, hk⟩ := readRequestBodyGo_crossed maxBytesDefault chunks 0 []
    (Nat.zero_le _) (by simpa using hsz)
  have happ := readRequestBodyGo_append maxBytesDefault chunks extra 0 []
    (Nat.zero_le _) (by simpa using hsz)
  have hserver : serverStep env jsonParse upstream (some u) method origin contentType
      chunks = .plain 413 "Payload too large" := by
    simp [serverStep, jsStartsWith, hurl, readRequestBody, hk]
  exact ⟨⟨k, hk⟩, happ, hserver, by rw [hserver]; rfl⟩

/-- The UTF-8 byte size of a run of n copies of the letter a is n. -/
theorem utf8ByteSize_replicate_a (n : Nat) :
    String.utf8ByteSize ⟨List.replicate n 'a'⟩ = n := by
  induction n with
  | zero => rfl
  | succ m ih =>
    show String.utf8ByteSize ⟨'a' :: List.replicate m 'a'⟩ = m + 1
    rw [show String.utf8ByteSize ⟨'a' :: List.replicate m 'a'⟩ =
        String.utf8ByteSize ⟨List.replicate m 'a'⟩ + 1 from rfl, ih]

/-- Witness for C9: a single 1,000,001-byte chunk on the chat route is
rejected 413 with the connection destroyed and the handler never runs,
and a further chunk arriving after the abort changes nothing. -/
theorem c9_witness :
    (∃ k, readRequestBody [bigChunk] maxBytesDefault =
       ⟨.error ⟨some 413, some "Payload too large"⟩, true, k⟩) ∧
    readRequestBody ([bigChunk] ++ ["x"]) maxBytesDefault =
      readRequestBody [bigChunk] maxBytesDefault ∧
    serverStep envMock jpHello upOk (some "/api/chat") (some "POST")
      (some "https://a.com") (some "application/json") [bigChunk] =
      .plain 413 "Payload too large" ∧
    (serverStep envMock jpHello upOk (some "/api/chat") (some "POST")
      (some "https://a.com") (some "application/json") [bigChunk]).handlerInvoked = false :=
  c9_byte_ceiling envMock jpHello upOk "/api/chat" (some "POST")
    (some "https://a.com") (some "application/json") [bigChunk] ["x"]
    (by decide)
    (by
      have h1 : bigChunk.utf8ByteSize = 1000001 := utf8ByteSize_replicate_a 1000001
      simp [h1, maxBytesDefault])
